import Mathlib

/-!
Verification development for the T3 bus dashboard firmware (`t3-tft.ino`).

The firmware renders six sensor readings (oil temperature, oil pressure,
water temperature, boost, rpm, voltage) as a 2×3 grid of colored cells on a
160×128 TFT display.  Readings are IEEE floats that may be NaN; here a
reading is embedded as `Option ℚ` with `none` standing for NaN (the only
float operations the rendering code performs are order comparisons against
decimal constants, `isnan`, and fixed-point formatting, all of which are
exact on the rationals involved).  Machine integers (`uint16_t` colors,
cache indices, the frame counter) are embedded as `Nat` with explicit
`% 2 ^ 16` where 16-bit wraparound is possible.

The display driver (`Adafruit_ST7735`) is an external collaborator; the
embedding records the arguments the firmware passes to it (cell text,
background color, grid position, and whether a background fill was issued)
rather than pixels.
-/

namespace T3TFT

/-! ### Color constants

565-RGB color values, from the external `Adafruit_ST7735.h` header the
sketch includes. -/

def ST7735_BLACK : Nat := 0x0000
def ST7735_BLUE : Nat := 0x001F
def ST7735_RED : Nat := 0xF800
def ST7735_ORANGE : Nat := 0xFC00
def ST7735_WHITE : Nat := 0xFFFF

/-! ### Readings (`struct Values`) -/

/-- `struct Values`: the six sensor readings.  A C `float` field is embedded
as `Option ℚ`; `none` models NaN. -/
structure Values where
  oil_temp : Option ℚ
  oil_press : Option ℚ
  water_temp : Option ℚ
  boost : Option ℚ
  rpm : Option ℚ
  volt : Option ℚ
deriving DecidableEq

/-- `Values::empty()`: every field NaN. -/
def Values.empty : Values :=
  { oil_temp := none, oil_press := none, water_temp := none,
    boost := none, rpm := none, volt := none }

/-- The reading drawn at list position `i` of a frame, in the order
`draw_cells` processes them. -/
def readingAt (d : Values) (i : Nat) : Option ℚ :=
  [d.oil_temp, d.oil_press, d.water_temp, d.boost, d.rpm, d.volt].getD i none

/-! ### `sprintf("%w.pf", v)` model

C's `%w.pf` conversion: round the value to `p` decimal places (round half
to even), print with exactly `p` digits after the decimal point (no point
when `p = 0`), and left-pad with spaces to a minimum width of `w`.
A NaN prints as `"nan"`, again padded to width `w`. -/

def padLeft (s : String) (w : Nat) : String :=
  String.mk (List.replicate (w - s.length) ' ') ++ s

def padZeros (s : String) (p : Nat) : String :=
  String.mk (List.replicate (p - s.length) '0') ++ s

/-- Round a rational to the nearest integer, ties to even (C99 `printf`
rounding for exactly representable halves). -/
def roundHalfEven (q : ℚ) : ℤ :=
  let f := ⌊q⌋
  let r := q - f
  if r < 1/2 then f
  else if 1/2 < r then f + 1
  else if f % 2 = 0 then f else f + 1

/-- `sprintf("%w.pf", q)` for a non-NaN value `q`. -/
def fmtFixed (q : ℚ) (w p : Nat) : String :=
  let n : ℤ := roundHalfEven (q * 10 ^ p)
  let sign := if n < 0 then "-" else ""
  let a := n.natAbs
  let body :=
    if p = 0 then Nat.repr a
    else Nat.repr (a / 10 ^ p) ++ "." ++ padZeros (Nat.repr (a % 10 ^ p)) p
  padLeft (sign ++ body) w

/-- `sprintf("%w.pf", v)` on a possibly-NaN reading. -/
def fmtF (v : Option ℚ) (w p : Nat) : String :=
  match v with
  | none => padLeft "nan" w
  | some q => fmtFixed q w p

/-- `v >= c` on a possibly-NaN reading: any comparison with NaN is false. -/
def vGe (v : Option ℚ) (c : ℚ) : Bool :=
  match v with
  | none => false
  | some q => decide (c ≤ q)

/-- The formatter's success flag: `sprintf`'s return value (the formatted
length) must equal the field width `w` and the value must not be NaN.
This is the negation of the guard `ret != w | isnan(v)` each block of
`draw_cells` tests before overriding the cell with `"ERR"`. -/
def fmt_ok (v : Option ℚ) (w p : Nat) : Bool :=
  !((fmtF v w p).length != w || v.isNone)

/-! ### Per-reading color ladders (`draw_cells`) -/

/-- Oil-temperature color ladder:
`color = BLUE; if (v >= 50) color = BLACK; if (v >= 100) color = ORANGE;
if (v >= 115) color = RED;` -/
def oil_temp_color (v : Option ℚ) : Nat :=
  let c := ST7735_BLUE
  let c := if vGe v 50 then ST7735_BLACK else c
  let c := if vGe v 100 then ST7735_ORANGE else c
  if vGe v 115 then ST7735_RED else c

/-- Oil-pressure color ladder:
`color = BLACK; if (v >= 2.5) color = RED;` -/
def oil_press_color (v : Option ℚ) : Nat :=
  let c := ST7735_BLACK
  if vGe v 2.5 then ST7735_RED else c

/-- Water-temperature color ladder:
`color = BLUE; if (v >= 50) color = BLACK; if (v >= 90) color = ORANGE;
if (v >= 100) color = RED;` -/
def water_temp_color (v : Option ℚ) : Nat :=
  let c := ST7735_BLUE
  let c := if vGe v 50 then ST7735_BLACK else c
  let c := if vGe v 90 then ST7735_ORANGE else c
  if vGe v 100 then ST7735_RED else c

/-! ### Cells -/

/-- The arguments `draw_cells` hands to `draw_cell` for one cell:
`draw_cell(unit, val, label, bg, pos_x, pos_y)`. -/
structure Cell where
  unit : String
  val : String
  label : String
  color : Nat
  pos_x : Nat
  pos_y : Nat
deriving DecidableEq, Inhabited

def UNIT_DEG_C : String := "\xF7C"
def UNIT_BAR : String := "Bar"

/-- Oil-temperature block of `draw_cells`: format with `"%3.0f"`, apply the
color ladder, and on `ret != 3 | isnan` override text to `"ERR"` and color
to red. -/
def oil_temp_cell (v : Option ℚ) : Cell :=
  { unit := UNIT_DEG_C,
    val := if fmt_ok v 3 0 then fmtF v 3 0 else "ERR",
    label := "OIL",
    color := if fmt_ok v 3 0 then oil_temp_color v else ST7735_RED,
    pos_x := 0, pos_y := 0 }

/-- Oil-pressure block of `draw_cells` (`"%3.1f"`, ladder, error override). -/
def oil_press_cell (v : Option ℚ) : Cell :=
  { unit := UNIT_BAR,
    val := if fmt_ok v 3 1 then fmtF v 3 1 else "ERR",
    label := "",
    color := if fmt_ok v 3 1 then oil_press_color v else ST7735_RED,
    pos_x := 1, pos_y := 0 }

/-- Water-temperature block of `draw_cells` (`"%3.0f"`, ladder, error
override). -/
def water_temp_cell (v : Option ℚ) : Cell :=
  { unit := UNIT_DEG_C,
    val := if fmt_ok v 3 0 then fmtF v 3 0 else "ERR",
    label := "WATER",
    color := if fmt_ok v 3 0 then water_temp_color v else ST7735_RED,
    pos_x := 0, pos_y := 1 }

/-- Boost block of `draw_cells` (`"%3.1f"`, constant black, error
override). -/
def boost_cell (v : Option ℚ) : Cell :=
  { unit := UNIT_BAR,
    val := if fmt_ok v 3 1 then fmtF v 3 1 else "ERR",
    label := "BOOST",
    color := if fmt_ok v 3 1 then ST7735_BLACK else ST7735_RED,
    pos_x := 1, pos_y := 1 }

/-- RPM block of `draw_cells` (`"%4.0f"`, constant black, error override). -/
def rpm_cell (v : Option ℚ) : Cell :=
  { unit := "",
    val := if fmt_ok v 4 0 then fmtF v 4 0 else "ERR",
    label := "RPM",
    color := if fmt_ok v 4 0 then ST7735_BLACK else ST7735_RED,
    pos_x := 0, pos_y := 2 }

/-- Voltage block of `draw_cells` (`"%4.1f"`, constant black, error
override). -/
def volt_cell (v : Option ℚ) : Cell :=
  { unit := "V",
    val := if fmt_ok v 4 1 then fmtF v 4 1 else "ERR",
    label := "VOLT",
    color := if fmt_ok v 4 1 then ST7735_BLACK else ST7735_RED,
    pos_x := 1, pos_y := 2 }

/-- One frame of `draw_cells`: the six `draw_cell` argument tuples, in
source order. -/
def draw_cells (d : Values) : List Cell :=
  [oil_temp_cell d.oil_temp, oil_press_cell d.oil_press,
   water_temp_cell d.water_temp, boost_cell d.boost,
   rpm_cell d.rpm, volt_cell d.volt]

/-- The cell at list position `i` of a frame. -/
def cellAt (d : Values) (i : Nat) : Cell :=
  (draw_cells d).getD i default

/-! ### Background cache and `draw_cell` -/

/-- The index arithmetic `pos_y * 2 + pos_x` used by `draw_cell` to address
`bg_cache`. -/
def cache_index (pos_x pos_y : Nat) : Nat :=
  pos_y * 2 + pos_x

/-- `bg_cache`'s initializer: all six entries `ST7735_BLACK`. -/
def bg_cache_init : Nat → Nat := fun _ => ST7735_BLACK

/-- The cache-relevant behavior of `draw_cell`: compare `bg` against
`bg_cache[pos_y*2+pos_x]`; on mismatch fill the cell background (`draw_bg`)
and update the cache entry.  Returns the new cache and whether a fill was
issued.  (The unconditional label/unit/value text draws that follow take
the `Cell` fields as arguments and touch no state.) -/
def draw_cell (bg : Nat) (pos_x pos_y : Nat) (cache : Nat → Nat) :
    (Nat → Nat) × Bool :=
  if bg ≠ cache (cache_index pos_x pos_y) then
    (fun i => if i = cache_index pos_x pos_y then bg else cache i, true)
  else
    (cache, false)

/-- One frame of `draw_cells` threaded through the background cache: the
six `draw_cell` calls in source order.  Returns the per-cell fill flags and
the final cache. -/
def draw_cells_run (d : Values) (cache : Nat → Nat) :
    List Bool × (Nat → Nat) :=
  let c1 := oil_temp_cell d.oil_temp
  let r1 := draw_cell c1.color c1.pos_x c1.pos_y cache
  let c2 := oil_press_cell d.oil_press
  let r2 := draw_cell c2.color c2.pos_x c2.pos_y r1.1
  let c3 := water_temp_cell d.water_temp
  let r3 := draw_cell c3.color c3.pos_x c3.pos_y r2.1
  let c4 := boost_cell d.boost
  let r4 := draw_cell c4.color c4.pos_x c4.pos_y r3.1
  let c5 := rpm_cell d.rpm
  let r5 := draw_cell c5.color c5.pos_x c5.pos_y r4.1
  let c6 := volt_cell d.volt
  let r6 := draw_cell c6.color c6.pos_x c6.pos_y r5.1
  ([r1.2, r2.2, r3.2, r4.2, r5.2, r6.2], r6.1)

/-- Whether the cell at list position `i` issued a background fill during a
frame started with cache state `cache`. -/
def fillAt (d : Values) (cache : Nat → Nat) (i : Nat) : Bool :=
  (draw_cells_run d cache).1.getD i false

/-! ### `gray_to_color` (splash-image decoder) -/

/-- `gray_to_color`: expand the low nibble of `v` to a 565 RGB gray.
`uint16_t` arithmetic; the final sum stays below `2 ^ 16` but the
wraparound of the return type is kept explicit. -/
def gray_to_color (v : Nat) : Nat :=
  let v := v &&& 0xf
  let five_bit := v * 31 / 15
  let six_bit := v * 63 / 15
  ((five_bit <<< 11) + (six_bit <<< 5) + five_bit) % 2 ^ 16

/-! ### `update_data` (placeholder value source) -/

/-- `update_data`: for the first five calls (`counter < 5`) only increment
the counter and return; afterwards overwrite all six readings with
triangle-wave dummy values.  The `static uint32_t counter` is threaded
explicitly; `(int)` casts of the (nonnegative) float bounds and values are
`⌊·⌋.toNat`. -/
def update_data (counter : Nat) (d : Values) : Values × Nat :=
  if counter < 5 then
    (d, counter + 1)
  else
    let oil_temp :=
      let range_min : ℚ := -20
      let range_max : ℚ := 130
      let range_diff := range_max - range_min
      let tick := counter % (⌊range_diff * 2⌋).toNat
      if (tick : ℚ) < range_diff then range_min + tick
      else range_max - ((tick : ℚ) - range_diff)
    let oil_press :=
      let range_min : ℚ := 0
      let range_max : ℚ := 5
      let range_diff := (range_max - range_min) * 10
      let tick := (counter / 2) % (⌊range_diff * 2⌋).toNat
      if (tick : ℚ) < range_diff then range_min + (tick : ℚ) / 10
      else range_max - ((tick : ℚ) - range_diff) / 10
    let water_temp :=
      let range_min : ℚ := 40
      let range_max : ℚ := 60
      let range_diff := range_max - range_min
      let tick := (counter / 7) % (⌊range_diff * 2⌋).toNat
      if (tick : ℚ) < range_diff then range_min + tick
      else range_max - ((tick : ℚ) - range_diff)
    let boost : Option ℚ :=
      if (counter / 20) % 2 = 1 then none else some 0.9
    let rpm :=
      let range_min : ℚ := 950
      let range_max : ℚ := 2750
      let range_diff := (range_max - range_min) / 14
      let tick := counter % (⌊range_diff * 2⌋).toNat
      let r := if (tick : ℚ) < range_diff then range_min + (tick : ℚ) * 14
               else range_max - ((tick : ℚ) - range_diff) * 14
      ((⌊r⌋.toNat / 25 * 25 : Nat) : ℚ)
    let volt : ℚ := if counter % 2 = 1 then 12.0 else 12.1
    ({ oil_temp := some oil_temp, oil_press := some oil_press,
       water_temp := some water_temp, boost := boost,
       rpm := some rpm, volt := some volt }, counter + 1)

/-- The `(data, counter)` state after `n` iterations of `loop`'s
`update_data(data)` call, starting from the initializers
`data = Values::empty()` and `counter = 0`. -/
def state_after : Nat → Values × Nat
  | 0 => (Values.empty, 0)
  | n + 1 => update_data (state_after n).2 (state_after n).1

/-! ### Helper lemmas -/

lemma fmt_ok_false_iff (v : Option ℚ) (w p : Nat) :
    fmt_ok v w p = false ↔ v = none ∨ (fmtF v w p).length ≠ w := by
  simp only [fmt_ok, Bool.not_eq_false', Bool.or_eq_true, bne_iff_ne,
    Option.isNone_iff_eq_none]
  tauto

lemma draw_cell_snd (bg x y : Nat) (cache : Nat → Nat) :
    (draw_cell bg x y cache).2 = decide (bg ≠ cache (cache_index x y)) := by
  unfold draw_cell
  split <;> simp_all

lemma draw_cell_fst_self (bg x y : Nat) (cache : Nat → Nat)
    (h : bg ≠ cache (cache_index x y)) :
    (draw_cell bg x y cache).1 (cache_index x y) = bg := by
  unfold draw_cell
  simp [h]

lemma draw_cell_fst_ne (bg x y : Nat) (cache : Nat → Nat) (j : Nat)
    (hj : j ≠ cache_index x y) : (draw_cell bg x y cache).1 j = cache j := by
  unfold draw_cell
  split <;> simp [hj]

/-- The six fill flags of one frame, characterized pointwise: cell `i`
fills iff its requested background differs from the initial cache at its
own index.  The six cache indices are pairwise distinct, so the sequential
cache updates of a frame never influence a later cell's decision. -/
lemma draw_cells_run_fills (d : Values) (cache : Nat → Nat) :
    (draw_cells_run d cache).1 =
      [decide ((oil_temp_cell d.oil_temp).color ≠ cache 0),
       decide ((oil_press_cell d.oil_press).color ≠ cache 1),
       decide ((water_temp_cell d.water_temp).color ≠ cache 2),
       decide ((boost_cell d.boost).color ≠ cache 3),
       decide ((rpm_cell d.rpm).color ≠ cache 4),
       decide ((volt_cell d.volt).color ≠ cache 5)] := by
  simp only [draw_cells_run, draw_cell_snd]
  simp only [oil_temp_cell, oil_press_cell, water_temp_cell, boost_cell,
    rpm_cell, volt_cell, cache_index]
  norm_num
  simp [draw_cell_fst_ne, cache_index]

lemma fmt120 : fmtF (some 120) 3 0 = "120" := by
  simp only [fmtF, fmtFixed, roundHalfEven]
  norm_num
  decide

lemma fmt1 : fmtF (some 1.0) 3 1 = "1.0" := by
  simp only [fmtF, fmtFixed, roundHalfEven]
  norm_num
  decide

lemma fmt85 : fmtF (some 85) 3 0 = " 85" := by
  simp only [fmtF, fmtFixed, roundHalfEven]
  norm_num
  decide

lemma fmt2000 : fmtF (some 2000) 4 0 = "2000" := by
  simp only [fmtF, fmtFixed, roundHalfEven]
  norm_num
  decide

lemma fmt121 : fmtF (some 12.1) 4 1 = "12.1" := by
  simp only [fmtF, fmtFixed, roundHalfEven]
  norm_num
  decide

/-- The Reading set of the end-to-end scenario of the spec (§8):
`{oil_temp=120, oil_press=1.0, water_temp=85, boost=NaN, rpm=2000,
volt=12.1}`. -/
def V4 : Values :=
  { oil_temp := some 120, oil_press := some 1.0, water_temp := some 85,
    boost := none, rpm := some 2000, volt := some 12.1 }

/-! ### Claim theorems -/

/-- C1: for every reading, the formatter's ok flag is false exactly when
the value is NaN or the formatted text's length differs from the field's
declared width (3 for oil_temp, oil_press, water_temp and boost, 4 for rpm
and volt); whenever ok is false, the cell's text becomes the literal string
"ERR" and its background color becomes alert red, replacing any
threshold-derived color. -/
theorem C1_format_err_override (v : Option ℚ) :
    (fmt_ok v 3 0 = false ↔ v = none ∨ (fmtF v 3 0).length ≠ 3) ∧
    (fmt_ok v 3 1 = false ↔ v = none ∨ (fmtF v 3 1).length ≠ 3) ∧
    (fmt_ok v 4 0 = false ↔ v = none ∨ (fmtF v 4 0).length ≠ 4) ∧
    (fmt_ok v 4 1 = false ↔ v = none ∨ (fmtF v 4 1).length ≠ 4) ∧
    (fmt_ok v 3 0 = false →
      (oil_temp_cell v).val = "ERR" ∧ (oil_temp_cell v).color = ST7735_RED) ∧
    (fmt_ok v 3 1 = false →
      (oil_press_cell v).val = "ERR" ∧ (oil_press_cell v).color = ST7735_RED) ∧
    (fmt_ok v 3 0 = false →
      (water_temp_cell v).val = "ERR" ∧ (water_temp_cell v).color = ST7735_RED) ∧
    (fmt_ok v 3 1 = false →
      (boost_cell v).val = "ERR" ∧ (boost_cell v).color = ST7735_RED) ∧
    (fmt_ok v 4 0 = false →
      (rpm_cell v).val = "ERR" ∧ (rpm_cell v).color = ST7735_RED) ∧
    (fmt_ok v 4 1 = false →
      (volt_cell v).val = "ERR" ∧ (volt_cell v).color = ST7735_RED) := by
  refine ⟨fmt_ok_false_iff v 3 0, fmt_ok_false_iff v 3 1,
    fmt_ok_false_iff v 4 0, fmt_ok_false_iff v 4 1, ?_, ?_, ?_, ?_, ?_, ?_⟩ <;>
    intro h <;>
    simp [oil_temp_cell, oil_press_cell, water_temp_cell, boost_cell,
      rpm_cell, volt_cell, h]

/-- C1 witness: at a NaN reading the ok flag is false and the oil
temperature cell shows "ERR" on alert red. -/
theorem C1_format_err_override_witness :
    fmt_ok (none : Option ℚ) 3 0 = false ∧
    (oil_temp_cell none).val = "ERR" ∧
    (oil_temp_cell none).color = ST7735_RED :=
  ⟨by decide, (C1_format_err_override none).2.2.2.2.1 (by decide)⟩

/-- C2 counterexample: with the startup cache (all entries `ST7735_BLACK`),
two successive `draw_cell` calls for position (0,0) with the same
background color `ST7735_BLACK` perform zero background fills, not exactly
one as the claim states. -/
theorem C2_repaint_counterexample :
    (draw_cell ST7735_BLACK 0 0 (fun _ => ST7735_BLACK)).2 = false ∧
    (draw_cell ST7735_BLACK 0 0
      ((draw_cell ST7735_BLACK 0 0 (fun _ => ST7735_BLACK)).1)).2 = false := by
  decide

/-- C2 amended: provided the cached color at the position differs from the
requested background beforehand, calling `draw_cell` twice with the same
background performs exactly one fill across the two calls (the second is
skipped because the cache matches), and a second call with a different
background performs a second fill and updates the cache entry to the new
color. -/
theorem C2_repaint_idempotence (bg bg2 x y : Nat) (cache : Nat → Nat)
    (h : cache (cache_index x y) ≠ bg) (h2 : bg2 ≠ bg) :
    (draw_cell bg x y cache).2 = true ∧
    (draw_cell bg x y (draw_cell bg x y cache).1).2 = false ∧
    (draw_cell bg2 x y (draw_cell bg x y cache).1).2 = true ∧
    (draw_cell bg2 x y (draw_cell bg x y cache).1).1 (cache_index x y) = bg2 := by
  have hfst : (draw_cell bg x y cache).1 (cache_index x y) = bg := by
    unfold draw_cell
    split <;> simp_all [eq_comm]
  refine ⟨?_, ?_, ?_, ?_⟩
  · rw [draw_cell_snd]
    simp [Ne.symm h]
  · rw [draw_cell_snd, hfst]
    simp
  · rw [draw_cell_snd, hfst]
    simp [h2]
  · have hne : bg2 ≠ (draw_cell bg x y cache).1 (cache_index x y) := by
      rw [hfst]
      exact h2
    exact draw_cell_fst_self bg2 x y _ hne

/-- C2 witness: a concrete run of the amended statement with cache value 0,
first background 1 and second background 2 at position (0,0). -/
theorem C2_repaint_idempotence_witness :
    ((fun _ => (0 : Nat)) (cache_index 0 0) ≠ 1) ∧ ((2 : Nat) ≠ 1) ∧
    ((draw_cell 1 0 0 (fun _ => 0)).2 = true ∧
     (draw_cell 1 0 0 (draw_cell 1 0 0 (fun _ => 0)).1).2 = false ∧
     (draw_cell 2 0 0 (draw_cell 1 0 0 (fun _ => 0)).1).2 = true ∧
     (draw_cell 2 0 0 (draw_cell 1 0 0 (fun _ => 0)).1).1 (cache_index 0 0) = 2) :=
  ⟨by decide, by decide,
    C2_repaint_idempotence 1 2 0 0 (fun _ => 0) (by decide) (by decide)⟩

/-- C3: threshold bands are inclusive at their lower bound and the highest
met threshold wins: oil_temp 100.0 is warn orange, 99.999 is neutral black,
115.0 is alert red, anything below 50 is info blue; the analogous
inclusive-lower-bound ladder holds for water_temp (50/90/100) and for
oil_press (2.5 to alert). -/
theorem C3_threshold_bounds :
    oil_temp_color (some 100) = ST7735_ORANGE ∧
    oil_temp_color (some 99.999) = ST7735_BLACK ∧
    oil_temp_color (some 115) = ST7735_RED ∧
    (∀ q : ℚ, q < 50 → oil_temp_color (some q) = ST7735_BLUE) ∧
    water_temp_color (some 50) = ST7735_BLACK ∧
    water_temp_color (some 49.999) = ST7735_BLUE ∧
    water_temp_color (some 90) = ST7735_ORANGE ∧
    water_temp_color (some 89.999) = ST7735_BLACK ∧
    water_temp_color (some 100) = ST7735_RED ∧
    water_temp_color (some 99.999) = ST7735_ORANGE ∧
    (∀ q : ℚ, q < 50 → water_temp_color (some q) = ST7735_BLUE) ∧
    oil_press_color (some 2.5) = ST7735_RED ∧
    oil_press_color (some 2.499) = ST7735_BLACK ∧
    (∀ q : ℚ, q < 2.5 → oil_press_color (some q) = ST7735_BLACK) := by
  refine ⟨?_, ?_, ?_, ?_, ?_, ?_, ?_, ?_, ?_, ?_, ?_, ?_, ?_, ?_⟩
  case refine_4 =>
    intro q hq
    have h1 : ¬(50 : ℚ) ≤ q := by linarith
    have h2 : ¬(100 : ℚ) ≤ q := by linarith
    have h3 : ¬(115 : ℚ) ≤ q := by linarith
    simp [oil_temp_color, vGe, h1, h2, h3]
  case refine_11 =>
    intro q hq
    have h1 : ¬(50 : ℚ) ≤ q := by linarith
    have h2 : ¬(90 : ℚ) ≤ q := by linarith
    have h3 : ¬(100 : ℚ) ≤ q := by linarith
    simp [water_temp_color, vGe, h1, h2, h3]
  case refine_14 =>
    intro q hq
    have h1 : ¬(2.5 : ℚ) ≤ q := by linarith
    simp [oil_press_color, vGe, h1]
  all_goals
    simp only [oil_temp_color, water_temp_color, oil_press_color, vGe]
    norm_num

/-- C3 witness: the below-50 band of the oil-temperature ladder at 0. -/
theorem C3_threshold_bounds_witness :
    ((0 : ℚ) < 50) ∧ oil_temp_color (some 0) = ST7735_BLUE :=
  ⟨by decide, C3_threshold_bounds.2.2.2.1 0 (by decide)⟩

/-- C4 counterexample: on the scenario readings the OIL cell's background
is alert red (120 meets the 115 alert threshold), not the claimed warn
orange, and the WATER cell's text is the width-3 string " 85", not "85". -/
theorem C4_frame_counterexample :
    (cellAt V4 0).color = ST7735_RED ∧ ST7735_RED ≠ ST7735_ORANGE ∧
    (cellAt V4 2).val = " 85" ∧ " 85" ≠ "85" := by
  refine ⟨?_, by decide, ?_, by decide⟩
  · simp [cellAt, draw_cells, V4, oil_temp_cell, fmt_ok, fmt120,
      oil_temp_color, vGe]
    norm_num
  · simp [cellAt, draw_cells, V4, water_temp_cell, fmt_ok, fmt85]
    decide

/-- C4 amended: for the Reading set {oil_temp=120, oil_press=1.0,
water_temp=85, boost=NaN, rpm=2000, volt=12.1}, one frame of `draw_cells`
produces exactly: OIL "120" on alert red (120 is at or above the 115 alert
threshold), the unlabeled pressure cell "1.0" neutral, WATER " 85" neutral
(space-padded to the declared width 3), BOOST "ERR" on alert red, RPM
"2000" neutral, VOLT "12.1" neutral. -/
theorem C4_frame_scenario :
    draw_cells V4 =
      [{ unit := UNIT_DEG_C, val := "120", label := "OIL",
         color := ST7735_RED, pos_x := 0, pos_y := 0 },
       { unit := UNIT_BAR, val := "1.0", label := "",
         color := ST7735_BLACK, pos_x := 1, pos_y := 0 },
       { unit := UNIT_DEG_C, val := " 85", label := "WATER",
         color := ST7735_BLACK, pos_x := 0, pos_y := 1 },
       { unit := UNIT_BAR, val := "ERR", label := "BOOST",
         color := ST7735_RED, pos_x := 1, pos_y := 1 },
       { unit := "", val := "2000", label := "RPM",
         color := ST7735_BLACK, pos_x := 0, pos_y := 2 },
       { unit := "V", val := "12.1", label := "VOLT",
         color := ST7735_BLACK, pos_x := 1, pos_y := 2 }] := by
  simp only [draw_cells, V4, oil_temp_cell, oil_press_cell, water_temp_cell,
    boost_cell, rpm_cell, volt_cell, fmt_ok, fmt120, fmt1, fmt85, fmt2000,
    fmt121, oil_temp_color, oil_press_color, water_temp_color, vGe]
  norm_num
  decide

/-- C5 counterexample: the cache is initialized to `ST7735_BLACK`, which is
not a sentinel distinct from every requestable color: a first render that
requests a black background (position (0,0) here) performs no background
paint. -/
theorem C5_first_paint_counterexample :
    bg_cache_init (cache_index 0 0) = ST7735_BLACK ∧
    (draw_cell ST7735_BLACK 0 0 bg_cache_init).2 = false := by
  decide

/-- C5 amended: against the initial cache a render performs a background
paint exactly when the color it requests differs from `ST7735_BLACK`; in
the actual first frame after startup every reading is still NaN, so all six
cells request alert red and all six first renders do paint. -/
theorem C5_first_paint :
    (∀ bg x y,
      ((draw_cell bg x y bg_cache_init).2 = true ↔ bg ≠ ST7735_BLACK)) ∧
    (draw_cells_run Values.empty bg_cache_init).1 =
      [true, true, true, true, true, true] := by
  constructor
  · intro bg x y
    rw [draw_cell_snd]
    simp [bg_cache_init]
  · decide

/-- C5 witness: a first render requesting alert red does paint. -/
theorem C5_first_paint_witness :
    (draw_cell ST7735_RED 0 0 bg_cache_init).2 = true :=
  (C5_first_paint.1 ST7735_RED 0 0).mpr (by decide)

/-- C6: one reading's value never affects another cell: if two Reading sets
agree on the reading of cell `i`, then cell `i`'s text, color, label, unit,
position and background-fill behavior are identical in the two frames
(whatever the other five readings are), for any shared initial cache
state. -/
theorem C6_cell_isolation (d₁ d₂ : Values) (cache : Nat → Nat) (i : Nat)
    (hi : i < 6) (h : readingAt d₁ i = readingAt d₂ i) :
    cellAt d₁ i = cellAt d₂ i ∧ fillAt d₁ cache i = fillAt d₂ cache i := by
  interval_cases i <;>
    (simp only [readingAt, List.getD, List.get?, Option.getD_some] at h
     simp [cellAt, fillAt, draw_cells, draw_cells_run_fills, h])

/-- C6 witness: two Reading sets that differ only in boost render the oil
temperature cell identically. -/
theorem C6_cell_isolation_witness :
    ((0 : Nat) < 6) ∧
    readingAt { Values.empty with boost := some 1 } 0 =
      readingAt Values.empty 0 ∧
    (cellAt { Values.empty with boost := some 1 } 0 = cellAt Values.empty 0 ∧
     fillAt { Values.empty with boost := some 1 } (fun _ => 0) 0 =
       fillAt Values.empty (fun _ => 0) 0) :=
  ⟨by decide, by decide,
    C6_cell_isolation { Values.empty with boost := some 1 } Values.empty
      (fun _ => 0) 0 (by decide) (by decide)⟩

/-- C7: for every 4-bit gray level v in 0..15, `gray_to_color v` is the 565
color whose 5-bit red and blue channels both equal `v*31/15` and whose
6-bit green channel equals `v*63/15`; level 0 maps to black and level 15 to
full white. -/
theorem C7_gray_channels (v : Nat) (h : v < 16) :
    gray_to_color v
      = (v * 31 / 15) * 2 ^ 11 + (v * 63 / 15) * 2 ^ 5 + v * 31 / 15 ∧
    gray_to_color v / 2 ^ 11 % 2 ^ 5 = v * 31 / 15 ∧
    gray_to_color v / 2 ^ 5 % 2 ^ 6 = v * 63 / 15 ∧
    gray_to_color v % 2 ^ 5 = v * 31 / 15 ∧
    gray_to_color 0 = ST7735_BLACK ∧ gray_to_color 15 = ST7735_WHITE := by
  revert h
  revert v
  decide

/-- C7 witness: the channel equations at gray level 15. -/
theorem C7_gray_channels_witness :
    (15 : Nat) < 16 ∧
    (gray_to_color 15
        = (15 * 31 / 15) * 2 ^ 11 + (15 * 63 / 15) * 2 ^ 5 + 15 * 31 / 15 ∧
      gray_to_color 15 / 2 ^ 11 % 2 ^ 5 = 15 * 31 / 15 ∧
      gray_to_color 15 / 2 ^ 5 % 2 ^ 6 = 15 * 63 / 15 ∧
      gray_to_color 15 % 2 ^ 5 = 15 * 31 / 15 ∧
      gray_to_color 0 = ST7735_BLACK ∧ gray_to_color 15 = ST7735_WHITE) :=
  ⟨by decide, C7_gray_channels 15 (by decide)⟩

/-- C8: for the grid positions `draw_cells` uses (column below 2, row below
3), the cache index `row*2+column` computed by `draw_cell` is within the
bounds of the 6-entry cache, and the mapping is injective: distinct grid
positions never share a cache entry. -/
theorem C8_cache_index_inj (x y x2 y2 : Nat) (hx : x < 2) (hy : y < 3)
    (hx2 : x2 < 2) (hy2 : y2 < 3) :
    cache_index x y < 6 ∧
    (cache_index x y = cache_index x2 y2 → x = x2 ∧ y = y2) := by
  simp only [cache_index]
  omega

/-- C8 witness: the bound and injectivity statement at position (1,2). -/
theorem C8_cache_index_inj_witness :
    ((1 : Nat) < 2) ∧ ((2 : Nat) < 3) ∧
    (cache_index 1 2 < 6 ∧
     (cache_index 1 2 = cache_index 1 2 → 1 = 1 ∧ 2 = 2)) :=
  ⟨by decide, by decide,
    C8_cache_index_inj 1 2 1 2 (by decide) (by decide) (by decide) (by decide)⟩

/-- C9: over all 16-bit inputs, `gray_to_color` depends only on the low
nibble (`gray_to_color v = gray_to_color (v % 16)`), and the 5-bit red
field of the result always equals its 5-bit blue field, so the output is a
gray 565 color. -/
theorem C9_gray_low_nibble (v : Nat) (h : v < 2 ^ 16) :
    gray_to_color v = gray_to_color (v % 16) ∧
    gray_to_color v / 2 ^ 11 % 2 ^ 5 = gray_to_color v % 2 ^ 5 := by
  have hmask : ∀ w : Nat, w &&& 0xf = w % 16 := fun w =>
    Nat.and_pow_two_sub_one_eq_mod w 4
  have hmm : v % 16 % 16 = v % 16 := Nat.mod_mod_of_dvd v dvd_rfl
  have key : ∀ w : Nat, w < 16 →
      gray_to_color w / 2 ^ 11 % 2 ^ 5 = gray_to_color w % 2 ^ 5 := by decide
  have h1 : gray_to_color v = gray_to_color (v % 16) := by
    unfold gray_to_color
    rw [hmask, hmask, hmm]
  refine ⟨h1, ?_⟩
  rw [h1]
  exact key (v % 16) (Nat.mod_lt v (by decide))

/-- C9 witness: low-nibble dependence and the red/blue field equation at
input 300. -/
theorem C9_gray_low_nibble_witness :
    (300 : Nat) < 2 ^ 16 ∧
    (gray_to_color 300 = gray_to_color (300 % 16) ∧
     gray_to_color 300 / 2 ^ 11 % 2 ^ 5 = gray_to_color 300 % 2 ^ 5) :=
  ⟨by decide, C9_gray_low_nibble 300 (by decide)⟩

/-- C10: `update_data` leaves all six readings untouched for its first five
invocations, only incrementing its counter, so with the all-NaN initial
`Values` each of the six cells renders as "ERR" on alert red on every one
of the first five frames. -/
theorem C10_startup_frames (k i : Nat) (hk : k ≤ 5) (hi : i < 6) :
    state_after k = (Values.empty, k) ∧
    (cellAt (state_after k).1 i).val = "ERR" ∧
    (cellAt (state_after k).1 i).color = ST7735_RED := by
  interval_cases k <;> interval_cases i <;>
    exact ⟨by decide, by decide, by decide⟩

/-- C10 witness: after the fifth `update_data` call the data is still the
all-NaN initial value and the first cell still renders "ERR" on alert
red. -/
theorem C10_startup_frames_witness :
    ((5 : Nat) ≤ 5) ∧ ((0 : Nat) < 6) ∧
    (state_after 5 = (Values.empty, 5) ∧
     (cellAt (state_after 5).1 0).val = "ERR" ∧
     (cellAt (state_after 5).1 0).color = ST7735_RED) :=
  ⟨by decide, by decide, C10_startup_frames 5 0 (by decide) (by decide)⟩

end T3TFT
